import Mathlib

/-!
A shallow embedding of the PMSE storage-engine control plane
(`src/pmse_engine.cpp`, `src/pmse_change.h`): the pool registry, the
ident catalog with its safe-shutdown marker, the index-catalog linked
list per collection pool, and the `RemoveChange` undo object.

External failure points (persistent-pool create/open, persistent-memory
allocation, catalog operations that may throw) are modelled by boolean
oracles passed as input: the embedding computes, for each combination of
outcomes of the external calls, exactly the control flow the C++ code
takes.  `std::map` operations keep C++ semantics (`insert` does not
overwrite, `operator[]` does, `at` throws when absent; here absence is
an `Option`).  pmemobj transactions (`transaction::exec_tx`) are the
atomicity primitive: an aborted body leaves the state unchanged and the
exception propagates.
-/

namespace PMSE

/-- One record payload held in a collection's persistent map
(`InitData` in the C++ sources; its bytes are opaque here). -/
structure InitData where
  payload : String
deriving DecidableEq, Repr

/-- An index-catalog node (`struct Index` reachable from a collection
pool's root): the ident name written by `strcpy`, and the persistent
tree root allocated for the index, identified here by a numeric id.
The `next` pointer of the C++ node is the tail of the enclosing list. -/
structure Index where
  identName : String
  tree : Nat
deriving DecidableEq, Repr

/-- The root object of one collection pool (`struct Root`): the head
pointer of the singly-linked index-catalog list, rendered as a list
(head first = most recently linked first). -/
structure Root where
  index : List Index
deriving DecidableEq, Repr

/-- An open pool handle: the identity `pid` of the memory-mapped region
and the root object reachable through it. -/
structure Pool where
  pid : Nat
  root : Root
deriving DecidableEq, Repr

/-- Modelled from the spec: the ident catalog (`PmseList`, stored in the
engine's dedicated pool).  `pmse_list.cpp` is not part of the excerpted
sources; per the spec it holds ordered (ident, namespace) pairs and a
boolean safe-shutdown marker. -/
structure PmseList where
  kvs : List (String × String)
  safeShutdown : Bool
deriving DecidableEq, Repr

namespace PmseList

/-- Value of a key in the catalog, first occurrence. -/
def lookup (l : PmseList) (k : String) : Option String :=
  (l.kvs.find? (fun p => p.1 == k)).map (·.2)

/-- Modelled from the spec: `insertKV` records (ident → ns) in the
catalog; an already-present ident keeps a single entry with the new
namespace. -/
def insertKV (l : PmseList) (k v : String) : PmseList :=
  if (l.kvs.find? (fun p => p.1 == k)).isSome then
    { l with kvs := l.kvs.map (fun p => if p.1 == k then (k, v) else p) }
  else
    { l with kvs := l.kvs ++ [(k, v)] }

/-- Modelled from the spec: `update` is an upsert of (ident → ns). -/
def update (l : PmseList) (k v : String) : PmseList :=
  insertKV l k v

/-- Modelled from the spec: `deleteKV` removes the (ident → ns) entry. -/
def deleteKV (l : PmseList) (k : String) : PmseList :=
  { l with kvs := l.kvs.filter (fun p => !(p.1 == k)) }

/-- Modelled from the spec: `findFirstValue ns` resolves the first ident
mapped to namespace `ns` (used to find the collection's record-store
ident from an index descriptor's parent namespace). -/
def findFirstValue (l : PmseList) (v : String) : Option String :=
  (l.kvs.find? (fun p => p.2 == v)).map (·.1)

/-- Modelled from the spec: `isAfterSafeShutdown` reads the clean
shutdown marker. -/
def isAfterSafeShutdown (l : PmseList) : Bool :=
  l.safeShutdown

/-- Modelled from the spec: `resetState` resets the marker to
"unsafe" (false). -/
def resetState (l : PmseList) : PmseList :=
  { l with safeShutdown := false }

end PmseList

/-! ### `std::map<std::string, pool_base>` (the `_poolHandler`) -/

/-- `_poolHandler.find(k)` / `.at(k)` as an option. -/
def mapFind (m : List (String × Pool)) (k : String) : Option Pool :=
  (m.find? (fun p => p.1 == k)).map (·.2)

/-- `std::map::insert`: inserts only when the key is absent (an existing
entry is NOT overwritten). -/
def mapInsert (m : List (String × Pool)) (k : String) (v : Pool) :
    List (String × Pool) :=
  if (m.find? (fun p => p.1 == k)).isSome then m else m ++ [(k, v)]

/-- `std::map::operator[] =`: insert-or-assign. -/
def mapSet (m : List (String × Pool)) (k : String) (v : Pool) :
    List (String × Pool) :=
  if (m.find? (fun p => p.1 == k)).isSome then
    m.map (fun p => if p.1 == k then (k, v) else p)
  else m ++ [(k, v)]

/-- `std::map::erase(k)`. -/
def mapErase (m : List (String × Pool)) (k : String) : List (String × Pool) :=
  m.filter (fun p => !(p.1 == k))

/-- The engine's registry state: the ident → open-pool-handle map
(`_poolHandler`) and the ident catalog (`_identList`). -/
structure EngineState where
  poolHandler : List (String × Pool)
  identList : PmseList
deriving DecidableEq, Repr

/-! ### Engine constructor (`PmseEngine::PmseEngine`) -/

/-- Outcomes of the external calls made by the constructor's `try`
block: `rootInitThrows` models `get_root` / the root-creating
`exec_tx` throwing; `stored` is the `list_root_ptr` already present in
the engine pool (`none` = null); `freshList` is the `PmseList` that
`make_persistent<PmseList>` builds when the root is absent. -/
structure CtorOracle where
  rootInitThrows : Bool
  stored : Option PmseList
  freshList : PmseList
deriving DecidableEq, Repr

/-- What the constructor ends with: either an initialized engine
(`_needCheck` latched, catalog marker reset), or the undefined-behavior
null dereference of `_identList->setPool` when the `try` block failed
and left `_identList` null. -/
inductive CtorOutcome where
  | ok (needCheck : Bool) (identList : PmseList)
  | nullDeref
deriving DecidableEq, Repr

/-- The catalog the constructor binds `_identList` to when its `try`
block does not throw: the stored root if present, else the freshly
created one. -/
def ctorCatalog (o : CtorOracle) : PmseList :=
  match o.stored with
  | some l => l
  | none => o.freshList

/-- `PmseEngine::PmseEngine` after the pool is open (lines 70-88 of
`pmse_engine.cpp`): the `try` block obtains or creates the catalog root
and assigns `_identList`; an exception there is caught and only logged,
leaving `_identList` null, after which `_identList->setPool(pop)`
dereferences null.  Otherwise `_needCheck` is set from
`isAfterSafeShutdown` and `resetState` runs. -/
def pmseEngineCtor (o : CtorOracle) : CtorOutcome :=
  if o.rootInitThrows then
    CtorOutcome.nullDeref
  else
    let l := ctorCatalog o
    let needCheck := if !(l.isAfterSafeShutdown) then true else false
    CtorOutcome.ok needCheck l.resetState

/-! ### `PmseEngine::createRecordStore` -/

/-- Status values a registry operation returns. -/
inductive OpStatus where
  | ok
  | errOutOfDiskSpace
deriving DecidableEq, Repr

/-- Outcome of `createRecordStore`: a returned `Status`, or an
exception propagated out of the function (`throw;` after the pool
create/open fails). -/
inductive CreateRSResult where
  | status (s : OpStatus)
  | thrown
deriving DecidableEq, Repr

/-- Outcomes of the external calls `createRecordStore` makes:
`poolOpThrows` is `pool<Root>::create`/`open` failing (logged and
rethrown); `newPool` is the handle it yields on success;
`insertKVThrows` and `ctorThrows` are the catalog insert and the
`PmseRecordStore` construction throwing (both turned into an
`OutOfDiskSpace` status by the second `try` block). -/
structure CreateRSOracle where
  poolOpThrows : Bool
  newPool : Pool
  insertKVThrows : Bool
  ctorThrows : Bool
deriving DecidableEq, Repr

/-- `PmseEngine::createRecordStore` (lines 97-125): create or open the
pool (failure rethrown, state untouched); register the handle under
ident with `std::map::insert`; then, inside a `try`, insert
(ident → ns) into the catalog and construct the record store, turning
an exception into an `OutOfDiskSpace` status.  Note the handle
registration happens BEFORE the second `try`, so it survives a failure
status. -/
def createRecordStore (o : CreateRSOracle) (ns ident : String)
    (st : EngineState) : CreateRSResult × EngineState :=
  if o.poolOpThrows then
    (CreateRSResult.thrown, st)
  else
    let st1 : EngineState :=
      { st with poolHandler := mapInsert st.poolHandler ident o.newPool }
    if o.insertKVThrows then
      (CreateRSResult.status OpStatus.errOutOfDiskSpace, st1)
    else
      let st2 : EngineState :=
        { st1 with identList := st1.identList.insertKV ident ns }
      if o.ctorThrows then
        (CreateRSResult.status OpStatus.errOutOfDiskSpace, st2)
      else
        (CreateRSResult.status OpStatus.ok, st2)

/-! ### `PmseEngine::getRecordStore` -/

/-- Outcomes of the external calls `getRecordStore` makes:
`cachedOpThrows` covers `get_root`/`storeCounters` throwing on the
cache-hit branch, `openThrows` covers `pool<Root>::open` throwing on
the miss branch (both logged and rethrown); `diskPool` is the handle
the miss branch opens from disk. -/
structure GetRSOracle where
  cachedOpThrows : Bool
  openThrows : Bool
  diskPool : Pool
deriving DecidableEq, Repr

/-- What `getRecordStore` hands to the `PmseRecordStore` it builds:
the pool the ident resolved to and whether that pool was (re)opened
from disk rather than found in `_poolHandler`. -/
structure GetRSOutcome where
  pool : Pool
  openedFromDisk : Bool
deriving DecidableEq, Repr

/-- `PmseEngine::getRecordStore` (lines 127-152): look the ident up in
`_poolHandler`; on a hit reuse the handle (no disk open), on a miss
open the pool from disk and cache it with `operator[]`; exceptions are
logged and rethrown (`none` here).  Afterwards the catalog entry is
upserted to (ident → ns). -/
def getRecordStore (o : GetRSOracle) (ns ident : String)
    (st : EngineState) : Option (GetRSOutcome × EngineState) :=
  match mapFind st.poolHandler ident with
  | some p =>
      if o.cachedOpThrows then none
      else
        some ({ pool := p, openedFromDisk := false },
              { st with identList := st.identList.update ident ns })
  | none =>
      if o.openThrows then none
      else
        let st1 : EngineState :=
          { st with poolHandler := mapSet st.poolHandler ident o.diskPool }
        some ({ pool := o.diskPool, openedFromDisk := true },
              { st1 with identList := st1.identList.update ident ns })

/-! ### pmemobj transactions -/

/-- `transaction::exec_tx`: runs the body atomically.  A body that
throws (`none`) aborts the transaction: no staged write becomes
visible and the state is returned unchanged; the `Bool` reports
whether the transaction committed. -/
def execTx {σ : Type} (body : σ → Option σ) (s : σ) : Bool × σ :=
  match body s with
  | some s' => (true, s')
  | none => (false, s)

/-! ### `PmseEngine::createSortedDataInterface` -/

/-- Linking of the freshly allocated index-catalog node at the head of
the pool's index list (the `if (rsRoot->index == nullptr)` branch of
the transaction body): both branches put the new node first, with the
previous head as its `next`. -/
def linkIndexNode (node : Index) (r : Root) : Root :=
  match r.index with
  | [] => { r with index := [node] }
  | old => { r with index := node :: old }

/-- Outcomes of the external calls `createSortedDataInterface` makes:
`allocThrows` is `make_persistent<Index>`/`make_persistent<PmseTree>`
failing inside the transaction (the transaction aborts and the
exception reaches the outer `catch`); `newTree` is the id of the tree
root allocated on success; `insertKVThrows` is the subsequent catalog
placeholder insert throwing. -/
structure CreateSDIOracle where
  allocThrows : Bool
  newTree : Nat
  insertKVThrows : Bool
deriving DecidableEq, Repr

/-- Resolution of the owning collection's pool: `findFirstValue` on the
descriptor's parent namespace gives the record-store ident, then
`_poolHandler.at` gives its open handle; `none` when either step throws
(`std::out_of_range` from `.at`). -/
def resolveCollection (st : EngineState) (parentNs : String) :
    Option (String × Pool) :=
  match st.identList.findFirstValue parentNs with
  | none => none
  | some rsIdent =>
      match mapFind st.poolHandler rsIdent with
      | none => none
      | some p => some (rsIdent, p)

/-- `PmseEngine::createSortedDataInterface` (lines 154-179): resolve
the owning collection pool, then inside ONE `exec_tx` allocate the
`Index` node and its `PmseTree` root, write the ident name, and link
the node at the list head; afterwards register (ident → "") in the
catalog.  Any exception (resolution, aborted transaction, catalog
insert) is caught and returned as `OutOfDiskSpace`. -/
def createSortedDataInterface (o : CreateSDIOracle) (ident parentNs : String)
    (st : EngineState) : OpStatus × EngineState :=
  match resolveCollection st parentNs with
  | none => (OpStatus.errOutOfDiskSpace, st)
  | some (rsIdent, p) =>
      let tx := execTx
        (fun r =>
          if o.allocThrows then none
          else some (linkIndexNode { identName := ident, tree := o.newTree } r))
        p.root
      if tx.1 then
        let st1 : EngineState :=
          { st with poolHandler :=
              mapSet st.poolHandler rsIdent { p with root := tx.2 } }
        if o.insertKVThrows then
          (OpStatus.errOutOfDiskSpace, st1)
        else
          (OpStatus.ok, { st1 with identList := st1.identList.insertKV ident "" })
      else
        (OpStatus.errOutOfDiskSpace, st)

/-! ### `PmseEngine::getSortedDataInterface` -/

/-- The scan loop of `getSortedDataInterface` (lines 187-192):
`indexFound` starts null and is overwritten by EVERY node whose name
compares equal to ident, walking from the list head; the last match in
walk order wins. -/
def scanLoop (ident : String) (acc : Option Index) :
    List Index → Option Index
  | [] => acc
  | n :: rest =>
      scanLoop ident (if n.identName == ident then some n else acc) rest

/-- The whole scan: `indexFound` after the loop, starting from null. -/
def scanIndexList (ident : String) (l : List Index) : Option Index :=
  scanLoop ident none l

/-- Outcome of `getSortedDataInterface`: the tree root the interface is
bound to, or the undefined-behavior null dereference of
`indexFound->tree` when no node matched. -/
inductive GetSDIResult where
  | ok (tree : Nat)
  | nullDeref
deriving DecidableEq, Repr

/-- `PmseEngine::getSortedDataInterface` on an already-resolved
collection pool root (lines 186-193): scan the index-catalog list;
`new PmseSortedDataInterface(..., indexFound->tree)` dereferences the
found node — or null when the scan found nothing. -/
def getSortedDataInterfaceFrom (ident : String) (r : Root) : GetSDIResult :=
  match scanIndexList ident r.index with
  | some idx => GetSDIResult.ok idx.tree
  | none => GetSDIResult.nullDeref

/-! ### `PmseEngine::dropIdent` -/

/-- Outcome of `dropIdent`: the returned `Status`, or an exception
escaping the function (`boost::filesystem::remove_all` throwing — it is
NOT inside the `try` block). -/
inductive DropResult where
  | status (s : OpStatus)
  | thrown
deriving DecidableEq, Repr

/-- Outcomes of the external calls `dropIdent` makes: `closeThrows` is
the pool-handle `close()` throwing (caught and logged; note the
`erase` in the same `try` is then skipped); `removeAllThrows` is
`boost::filesystem::remove_all` throwing (uncaught). -/
structure DropOracle where
  closeThrows : Bool
  removeAllThrows : Bool
deriving DecidableEq, Repr

/-- `PmseEngine::dropIdent` (lines 196-210): delete the catalog entry
first; then, best-effort, close and erase the pool handle if one is
registered (an exception is logged, leaving the handle registered);
then delete the backing file, whose exception is NOT caught; return
OK. -/
def dropIdent (o : DropOracle) (ident : String) (st : EngineState) :
    DropResult × EngineState :=
  let st1 : EngineState := { st with identList := st.identList.deleteKV ident }
  let st2 : EngineState :=
    if (mapFind st1.poolHandler ident).isSome then
      if o.closeThrows then st1
      else { st1 with poolHandler := mapErase st1.poolHandler ident }
    else st1
  if o.removeAllThrows then
    (DropResult.thrown, st2)
  else
    (DropResult.status OpStatus.ok, st2)

/-! ### `RemoveChange` (`pmse_change.h`) -/

/-- A collection's in-memory backing map of records, as far as the
change objects see it. -/
structure MapState where
  records : List InitData
deriving DecidableEq, Repr

/-- Modelled from the spec: `RemoveChange` (declared in
`pmse_change.h`; its member definitions are not among the excerpted
sources).  It captures the pool context and the removed record's
pre-removal payload (`_cachedData`); `cachedData = none` models the
payload having been released. -/
structure RemoveChange where
  pop : Nat
  cachedData : Option InitData
deriving DecidableEq, Repr

namespace RemoveChange

/-- Modelled from the spec: construction at the moment a record is
logically removed, caching the pre-removal payload. -/
def fromPayload (pop : Nat) (data : InitData) : RemoveChange :=
  { pop := pop, cachedData := some data }

/-- Modelled from the spec: `rollback()` re-inserts `cachedRecordData`
back into the mapper's backing map inside the same pool context. -/
def rollback (c : RemoveChange) (m : MapState) : RemoveChange × MapState :=
  match c.cachedData with
  | some d => ({ c with cachedData := none }, { records := d :: m.records })
  | none => (c, m)

/-- Modelled from the spec: `commit()` releases the cached payload and
leaves the backing map untouched. -/
def commit (c : RemoveChange) (m : MapState) : RemoveChange × MapState :=
  ({ c with cachedData := none }, m)

end RemoveChange

/-! ### Mutex acquisition per structural operation -/

/-- The five structural operations of the registry. -/
inductive StructuralOp where
  | createRecordStore
  | getRecordStore
  | createSortedDataInterface
  | getSortedDataInterface
  | dropIdent
deriving DecidableEq, Repr

/-- Whether the operation's body opens with
`stdx::lock_guard<stdx::mutex> lock(_pmutex)` in `pmse_engine.cpp`:
present at lines 99, 157 and 197; absent from `getRecordStore`
(lines 127-152) and `getSortedDataInterface` (lines 181-194). -/
def acquiresRegistryMutex : StructuralOp → Bool
  | StructuralOp.createRecordStore => true
  | StructuralOp.getRecordStore => false
  | StructuralOp.createSortedDataInterface => true
  | StructuralOp.getSortedDataInterface => false
  | StructuralOp.dropIdent => true

/-! ### Lemmas about the association-list operations -/

theorem find?_assoc_append_self {α : Type} (m : List (String × α)) (k : String)
    (v : α) (h : m.find? (fun p => p.1 == k) = none) :
    (m ++ [(k, v)]).find? (fun p => p.1 == k) = some (k, v) := by
  induction m with
  | nil => simp [List.find?_cons]
  | cons a rest ih =>
      rw [List.find?_cons] at h
      rw [List.cons_append, List.find?_cons]
      cases ha : (a.1 == k) with
      | true => simp [ha] at h
      | false =>
          simp only [ha] at h ⊢
          exact ih h

theorem find?_assoc_map_replace {α : Type} (m : List (String × α)) (k : String)
    (v : α) (h : (m.find? (fun p => p.1 == k)).isSome) :
    (m.map (fun p => if p.1 == k then (k, v) else p)).find?
      (fun p => p.1 == k) = some (k, v) := by
  induction m with
  | nil => simp [List.find?] at h
  | cons a rest ih =>
      rw [List.find?_cons] at h
      cases ha : (a.1 == k) with
      | true =>
          simp only [List.map_cons, ha, if_true]
          rw [List.find?_cons]
          simp
      | false =>
          rw [ha] at h
          simp only [cond_false] at h
          simp only [List.map_cons, ha, if_false, Bool.false_eq_true]
          rw [List.find?_cons, ha]
          simp only [cond_false]
          exact ih h

theorem find?_assoc_filter_out {α : Type} (m : List (String × α)) (k : String) :
    (m.filter (fun p => !(p.1 == k))).find? (fun p => p.1 == k) = none := by
  rw [List.find?_eq_none]
  intro x hx
  have hmem := List.mem_filter.mp hx
  simpa using hmem.2

theorem mapFind_mapInsert_self_isSome (m : List (String × Pool)) (k : String)
    (v : Pool) : (mapFind (mapInsert m k v) k).isSome := by
  unfold mapInsert mapFind
  cases h : m.find? (fun p => p.1 == k) with
  | some a => simp [h]
  | none => simp [h, find?_assoc_append_self m k v h]

theorem mapFind_mapSet_self (m : List (String × Pool)) (k : String) (v : Pool) :
    mapFind (mapSet m k v) k = some v := by
  unfold mapSet mapFind
  split
  next hs => rw [find?_assoc_map_replace m k v hs]; rfl
  next hs =>
      cases hfind : m.find? (fun p => p.1 == k) with
      | some a => exact absurd (by rw [hfind]; rfl) hs
      | none => rw [find?_assoc_append_self m k v hfind]; rfl

theorem lookup_insertKV_self (l : PmseList) (k v : String) :
    (l.insertKV k v).lookup k = some v := by
  unfold PmseList.insertKV PmseList.lookup
  split
  next hs => rw [find?_assoc_map_replace l.kvs k v hs]; rfl
  next hs =>
      cases hfind : l.kvs.find? (fun p => p.1 == k) with
      | some a => exact absurd (by rw [hfind]; rfl) hs
      | none => rw [find?_assoc_append_self l.kvs k v hfind]; rfl

theorem lookup_deleteKV_self (l : PmseList) (k : String) :
    (l.deleteKV k).lookup k = none := by
  unfold PmseList.deleteKV PmseList.lookup
  simp [find?_assoc_filter_out l.kvs k]

theorem linkIndexNode_eq (n : Index) (r : Root) :
    linkIndexNode n r = { r with index := n :: r.index } := by
  unfold linkIndexNode
  cases r with
  | mk l => cases l <;> rfl

theorem scanLoop_eq (ident : String) (acc : Option Index) (l : List Index) :
    scanLoop ident acc l
      = (l.reverse.find? (fun n => n.identName == ident)).elim acc some := by
  induction l generalizing acc with
  | nil => rfl
  | cons n rest ih =>
      rw [scanLoop, ih, List.reverse_cons, List.find?_append]
      cases h : rest.reverse.find? (fun m => m.identName == ident) with
      | some x => simp
      | none =>
          cases hn : (n.identName == ident) with
          | true => simp [List.find?, hn]
          | false => simp [List.find?, hn]

theorem scanIndexList_eq (ident : String) (l : List Index) :
    scanIndexList ident l = l.reverse.find? (fun n => n.identName == ident) := by
  rw [scanIndexList, scanLoop_eq]
  cases l.reverse.find? (fun n => n.identName == ident) <;> rfl

/-- What the spec's words for the index scan would return: the
most-recently-inserted node named ident, which is the FIRST match from
the list head (insertion is at the head).  Stated for comparison with
`getSortedDataInterfaceFrom`, which keeps the LAST match instead. -/
def mostRecentNamed (ident : String) (l : List Index) : Option Index :=
  l.find? (fun n => n.identName == ident)

/-! ### Sample values used by witnesses -/

/-- A sample open pool handle with an empty index list. -/
def samplePool : Pool := { pid := 1, root := { index := [] } }

/-- An engine state with nothing registered. -/
def sampleState : EngineState :=
  { poolHandler := [], identList := { kvs := [], safeShutdown := false } }

/-- An engine state with one collection "coll" of namespace "db.c"
registered, its pool handle open. -/
def sampleStateWithColl : EngineState :=
  { poolHandler := [("coll", samplePool)],
    identList := { kvs := [("coll", "db.c")], safeShutdown := false } }

/-! ### The claims -/

/-- C1: on engine initialization, if the catalog's safe-shutdown marker
indicates the prior process instance did not mark clean shutdown, the
recovery flag `_needCheck` is set to true; if it did, to false; and the
marker is reset to "unsafe" immediately after being read, before
initialization completes. -/
theorem engineInit_latches_and_resets_marker (o : CtorOracle)
    (h : o.rootInitThrows = false) :
    pmseEngineCtor o
      = CtorOutcome.ok (!(ctorCatalog o).safeShutdown)
          ((ctorCatalog o).resetState)
    ∧ ((ctorCatalog o).resetState).safeShutdown = false := by
  constructor
  · cases hs : (ctorCatalog o).safeShutdown with
    | true => simp [pmseEngineCtor, PmseList.isAfterSafeShutdown, h, hs]
    | false => simp [pmseEngineCtor, PmseList.isAfterSafeShutdown, h, hs]
  · rfl

/-- A constructor oracle for a clean prior shutdown. -/
def sampleCtorOracle : CtorOracle :=
  { rootInitThrows := false,
    stored := some { kvs := [("coll", "db.c")], safeShutdown := true },
    freshList := { kvs := [], safeShutdown := false } }

/-- Witness for C1 at a concrete catalog whose marker says the prior
shutdown was clean. -/
theorem engineInit_latches_and_resets_marker_witness :
    sampleCtorOracle.rootInitThrows = false
    ∧ (pmseEngineCtor sampleCtorOracle
        = CtorOutcome.ok (!(ctorCatalog sampleCtorOracle).safeShutdown)
            ((ctorCatalog sampleCtorOracle).resetState)
      ∧ ((ctorCatalog sampleCtorOracle).resetState).safeShutdown = false) :=
  ⟨rfl, engineInit_latches_and_resets_marker sampleCtorOracle rfl⟩

/-- C10: if the transaction creating the catalog root inside the engine
constructor throws, the exception is caught and only logged, and the
constructor then dereferences the still-null `_identList` pointer — a
null-pointer dereference instead of refusing to construct the
engine. -/
theorem engineCtor_null_deref_on_root_init_failure (o : CtorOracle)
    (h : o.rootInitThrows = true) :
    pmseEngineCtor o = CtorOutcome.nullDeref := by
  simp [pmseEngineCtor, h]

/-- A constructor oracle whose root-creating transaction throws. -/
def sampleCtorOracleThrow : CtorOracle :=
  { rootInitThrows := true, stored := none,
    freshList := { kvs := [], safeShutdown := false } }

/-- Witness for C10 at a concrete failing root initialization. -/
theorem engineCtor_null_deref_on_root_init_failure_witness :
    sampleCtorOracleThrow.rootInitThrows = true
    ∧ pmseEngineCtor sampleCtorOracleThrow = CtorOutcome.nullDeref :=
  ⟨rfl, engineCtor_null_deref_on_root_init_failure sampleCtorOracleThrow rfl⟩

/-- A `createRecordStore` run whose pool create/open succeeds but whose
catalog insert throws. -/
def sampleCreateOracleInsertFail : CreateRSOracle :=
  { poolOpThrows := false, newPool := samplePool,
    insertKVThrows := true, ctorThrows := false }

/-- C2 counterexample: a `createRecordStore` call that returns a
failure status (catalog insert threw) yet leaves the pool handle for
the ident registered in the pool-handle map — the registry is NOT left
unchanged. -/
theorem createRecordStore_failure_registry_cex :
    (createRecordStore sampleCreateOracleInsertFail "db.c" "coll" sampleState).1
      = CreateRSResult.status OpStatus.errOutOfDiskSpace
    ∧ mapFind (createRecordStore sampleCreateOracleInsertFail "db.c" "coll"
        sampleState).2.poolHandler "coll" = some samplePool := by
  constructor <;> rfl

/-- C2 amended: when `createRecordStore` returns a failure status, the
pool handle registered for the ident at line 114 remains in the
pool-handle map; the (ident → ns) catalog entry additionally remains
when the failure happened after the catalog insert succeeded. -/
theorem createRecordStore_failure_keeps_registration (o : CreateRSOracle)
    (ns ident : String) (st : EngineState)
    (h : (createRecordStore o ns ident st).1
          = CreateRSResult.status OpStatus.errOutOfDiskSpace) :
    (mapFind (createRecordStore o ns ident st).2.poolHandler ident).isSome
    ∧ (o.insertKVThrows = false →
        ((createRecordStore o ns ident st).2.identList).lookup ident
          = some ns) := by
  cases hp : o.poolOpThrows with
  | true => simp [createRecordStore, hp] at h
  | false =>
      cases hi : o.insertKVThrows with
      | true =>
          constructor
          · simp [createRecordStore, hp, hi]
            exact mapFind_mapInsert_self_isSome st.poolHandler ident o.newPool
          · intro hfalse
            exact Bool.noConfusion hfalse
      | false =>
          cases hc : o.ctorThrows with
          | true =>
              constructor
              · simp [createRecordStore, hp, hi, hc]
                exact mapFind_mapInsert_self_isSome st.poolHandler ident
                  o.newPool
              · intro _
                simp [createRecordStore, hp, hi, hc]
                exact lookup_insertKV_self st.identList ident ns
          | false => simp [createRecordStore, hp, hi, hc] at h

/-- A `createRecordStore` run whose catalog insert succeeds but whose
record-store construction throws. -/
def sampleCreateOracleCtorFail : CreateRSOracle :=
  { poolOpThrows := false, newPool := samplePool,
    insertKVThrows := false, ctorThrows := true }

/-- Witness for the amended C2 at a concrete run failing in the
record-store constructor: both the pool handle and the catalog entry
survive the failure status. -/
theorem createRecordStore_failure_keeps_registration_witness :
    (createRecordStore sampleCreateOracleCtorFail "db.c" "coll"
        sampleState).1 = CreateRSResult.status OpStatus.errOutOfDiskSpace
    ∧ sampleCreateOracleCtorFail.insertKVThrows = false
    ∧ (mapFind (createRecordStore sampleCreateOracleCtorFail "db.c" "coll"
          sampleState).2.poolHandler "coll").isSome
    ∧ ((createRecordStore sampleCreateOracleCtorFail "db.c" "coll"
          sampleState).2.identList).lookup "coll" = some "db.c" :=
  ⟨rfl, rfl,
    (createRecordStore_failure_keeps_registration sampleCreateOracleCtorFail
      "db.c" "coll" sampleState rfl).1,
    (createRecordStore_failure_keeps_registration sampleCreateOracleCtorFail
      "db.c" "coll" sampleState rfl).2 rfl⟩

/-- C3 counterexample: with two index-catalog nodes both named "a"
(tree 2 inserted last, so at the head), the most-recently-inserted node
carries tree 2 but the scan returns tree 1 — the scan keeps the LAST
match in head-to-tail order, i.e. the first-inserted node. -/
theorem getSortedDataInterface_duplicate_name_cex :
    mostRecentNamed "a"
        [{ identName := "a", tree := 2 }, { identName := "a", tree := 1 }]
      = some { identName := "a", tree := 2 }
    ∧ getSortedDataInterfaceFrom "a"
        { index := [{ identName := "a", tree := 2 },
                    { identName := "a", tree := 1 }] }
      ≠ GetSDIResult.ok 2
    ∧ getSortedDataInterfaceFrom "a"
        { index := [{ identName := "a", tree := 2 },
                    { identName := "a", tree := 1 }] }
      = GetSDIResult.ok 1 := by
  refine ⟨rfl, ?_, rfl⟩
  decide

/-- C3 amended: for every collection pool whose index-catalog list
contains one or more nodes named ident, `getSortedDataInterface`
returns the interface bound to the tree root of the FIRST-inserted
(least-recently-inserted) node with that name — the last match in
head-to-tail scan order, equivalently the first match of the reversed
list. -/
theorem getSortedDataInterface_first_inserted_wins (ident : String)
    (r : Root) (n : Index)
    (h : r.index.reverse.find? (fun m => m.identName == ident) = some n) :
    getSortedDataInterfaceFrom ident r = GetSDIResult.ok n.tree := by
  unfold getSortedDataInterfaceFrom
  rw [scanIndexList_eq, h]

/-- Witness for the amended C3 at the duplicate-name pool of the
counterexample: the first-inserted "a" node carries tree 1. -/
theorem getSortedDataInterface_first_inserted_wins_witness :
    (({ index := [{ identName := "a", tree := 2 },
                  { identName := "a", tree := 1 }] } : Root).index.reverse.find?
        (fun m => m.identName == "a") = some { identName := "a", tree := 1 })
    ∧ getSortedDataInterfaceFrom "a"
        { index := [{ identName := "a", tree := 2 },
                    { identName := "a", tree := 1 }] }
      = GetSDIResult.ok ({ identName := "a", tree := 1 } : Index).tree :=
  ⟨by decide, getSortedDataInterface_first_inserted_wins "a"
    { index := [{ identName := "a", tree := 2 },
                { identName := "a", tree := 1 }] }
    { identName := "a", tree := 1 } (by decide)⟩

/-- C5: whenever no index-catalog node of the collection pool is named
ident, `getSortedDataInterface` dereferences the null `indexFound`
pointer (fatal) instead of surfacing a not-found error. -/
theorem getSortedDataInterface_missing_ident_null_deref (ident : String)
    (r : Root) (h : ∀ n ∈ r.index, ¬(n.identName = ident)) :
    getSortedDataInterfaceFrom ident r = GetSDIResult.nullDeref := by
  unfold getSortedDataInterfaceFrom
  rw [scanIndexList_eq]
  have hn : r.index.reverse.find? (fun n => n.identName == ident) = none := by
    rw [List.find?_eq_none]
    intro x hx
    have hne := h x (List.mem_reverse.mp hx)
    simpa using hne
  rw [hn]

/-- Witness for C5: querying a name absent from a non-empty index
list. -/
theorem getSortedDataInterface_missing_ident_null_deref_witness :
    (∀ n ∈ ({ index := [{ identName := "a", tree := 2 }] } : Root).index,
      ¬(n.identName = "b"))
    ∧ getSortedDataInterfaceFrom "b" { index := [{ identName := "a", tree := 2 }] }
      = GetSDIResult.nullDeref :=
  ⟨by decide, getSortedDataInterface_missing_ident_null_deref "b"
    { index := [{ identName := "a", tree := 2 }] } (by decide)⟩

/-- C4: `createSortedDataInterface` allocates the index tree root and
catalog node and links the node at the list head inside one atomic
transaction: if allocation fails the transaction aborts and the whole
engine state — in particular the pool's index list — is unchanged; if
it succeeds the collection pool registered for the resolved ident has
the new node named ident at the head, with the previous head as its
tail. -/
theorem createSortedDataInterface_atomic_head_insert (o : CreateSDIOracle)
    (ident parentNs : String) (st : EngineState) (rsIdent : String) (p : Pool)
    (hres : resolveCollection st parentNs = some (rsIdent, p)) :
    (o.allocThrows = true →
      createSortedDataInterface o ident parentNs st
        = (OpStatus.errOutOfDiskSpace, st))
    ∧ (o.allocThrows = false →
      ∃ p2, mapFind (createSortedDataInterface o ident parentNs
              st).2.poolHandler rsIdent = some p2
        ∧ p2.root.index
            = { identName := ident, tree := o.newTree } :: p.root.index) := by
  constructor
  · intro ha
    simp [createSortedDataInterface, hres, execTx, ha]
  · intro ha
    cases hi : o.insertKVThrows with
    | true =>
        refine ⟨{ p with root := linkIndexNode ⟨ident, o.newTree⟩ p.root },
          ?_, ?_⟩
        · simp [createSortedDataInterface, hres, execTx, ha, hi]
          exact mapFind_mapSet_self st.poolHandler rsIdent _
        · simp [linkIndexNode_eq]
    | false =>
        refine ⟨{ p with root := linkIndexNode ⟨ident, o.newTree⟩ p.root },
          ?_, ?_⟩
        · simp [createSortedDataInterface, hres, execTx, ha, hi]
          exact mapFind_mapSet_self st.poolHandler rsIdent _
        · simp [linkIndexNode_eq]

/-- A `createSortedDataInterface` run whose allocations succeed. -/
def sampleSDIOracle : CreateSDIOracle :=
  { allocThrows := false, newTree := 7, insertKVThrows := false }

/-- Witness for C4 on the one-collection engine state, with the
allocation succeeding: the new node sits at the head of the resolved
pool's index list. -/
theorem createSortedDataInterface_atomic_head_insert_witness :
    resolveCollection sampleStateWithColl "db.c" = some ("coll", samplePool)
    ∧ sampleSDIOracle.allocThrows = false
    ∧ ∃ p2, mapFind (createSortedDataInterface sampleSDIOracle "idx" "db.c"
            sampleStateWithColl).2.poolHandler "coll" = some p2
        ∧ p2.root.index
            = { identName := "idx", tree := sampleSDIOracle.newTree }
                :: samplePool.root.index :=
  ⟨by decide, rfl,
    (createSortedDataInterface_atomic_head_insert sampleSDIOracle "idx"
      "db.c" sampleStateWithColl "coll" samplePool (by decide)).2 rfl⟩

/-- The result of `dropIdent` carries the catalog with the ident's
entry deleted, whatever the close/delete outcomes were. -/
theorem dropIdent_identList (o : DropOracle) (ident : String)
    (st : EngineState) :
    (dropIdent o ident st).2.identList = st.identList.deleteKV ident := by
  simp only [dropIdent]
  split <;> split <;> (try split) <;> rfl

/-- A drop whose backing-file deletion throws. -/
def sampleDropOracleDeleteFail : DropOracle :=
  { closeThrows := false, removeAllThrows := true }

/-- C6 counterexample: when `boost::filesystem::remove_all` throws —
it sits outside the `try` block — `dropIdent` does not return OK (the
exception propagates), although the catalog entry was removed. -/
theorem dropIdent_file_delete_failure_cex :
    (dropIdent sampleDropOracleDeleteFail "coll" sampleStateWithColl).1
      ≠ DropResult.status OpStatus.ok
    ∧ (dropIdent sampleDropOracleDeleteFail "coll"
        sampleStateWithColl).2.identList.lookup "coll" = none := by
  refine ⟨?_, rfl⟩
  decide

/-- C6 amended: `dropIdent` first removes the (ident → ns) catalog
entry, then best-effort (errors caught and logged) closes and
unregisters the pool handle if one is open, then deletes the backing
file; the catalog removal takes effect in every case, and `dropIdent`
returns OK even when the pool close fails — but a failing file delete
propagates an exception instead of returning OK. -/
theorem dropIdent_catalog_removal_best_effort (o : DropOracle)
    (ident : String) (st : EngineState) :
    ((dropIdent o ident st).2.identList.lookup ident = none)
    ∧ (o.removeAllThrows = false →
        (dropIdent o ident st).1 = DropResult.status OpStatus.ok)
    ∧ (o.removeAllThrows = true →
        (dropIdent o ident st).1 = DropResult.thrown) := by
  refine ⟨?_, ?_, ?_⟩
  · rw [dropIdent_identList]
    exact lookup_deleteKV_self st.identList ident
  · intro hr
    simp [dropIdent, hr]
  · intro hr
    simp [dropIdent, hr]

/-- A drop whose pool close throws while the file delete succeeds. -/
def sampleDropOracleCloseFail : DropOracle :=
  { closeThrows := true, removeAllThrows := false }

/-- Witness for the amended C6 at a close that throws while the file
delete succeeds: the drop still returns OK and the catalog entry is
gone. -/
theorem dropIdent_catalog_removal_best_effort_witness :
    sampleDropOracleCloseFail.removeAllThrows = false
    ∧ ((dropIdent sampleDropOracleCloseFail "coll"
        sampleStateWithColl).2.identList.lookup "coll" = none)
    ∧ (dropIdent sampleDropOracleCloseFail "coll"
        sampleStateWithColl).1 = DropResult.status OpStatus.ok :=
  ⟨rfl,
    (dropIdent_catalog_removal_best_effort sampleDropOracleCloseFail "coll"
      sampleStateWithColl).1,
    (dropIdent_catalog_removal_best_effort sampleDropOracleCloseFail "coll"
      sampleStateWithColl).2.1 rfl⟩

/-- C7: after a successful `createRecordStore(ns, ident, options)`, the
catalog observes ident mapped to ns, a pool handle for ident sits in
the pool-handle map, and a subsequent `getRecordStore(_, ident, _)`
finds that already-open handle and resolves to the same pool, with no
re-open from disk. -/
theorem create_then_get_same_pool (o : CreateRSOracle) (g : GetRSOracle)
    (ns ns2 ident : String) (st : EngineState)
    (hok : (createRecordStore o ns ident st).1
            = CreateRSResult.status OpStatus.ok)
    (hg : g.cachedOpThrows = false) :
    ((createRecordStore o ns ident st).2.identList.lookup ident = some ns)
    ∧ ∃ p, mapFind (createRecordStore o ns ident st).2.poolHandler ident
            = some p
        ∧ getRecordStore g ns2 ident (createRecordStore o ns ident st).2
            = some ({ pool := p, openedFromDisk := false },
                { (createRecordStore o ns ident st).2 with
                    identList := (createRecordStore o ns
                      ident st).2.identList.update ident ns2 }) := by
  cases hp : o.poolOpThrows with
  | true => simp [createRecordStore, hp] at hok
  | false =>
      cases hi : o.insertKVThrows with
      | true => simp [createRecordStore, hp, hi] at hok
      | false =>
          cases hc : o.ctorThrows with
          | true => simp [createRecordStore, hp, hi, hc] at hok
          | false =>
              have hsome := mapFind_mapInsert_self_isSome st.poolHandler
                ident o.newPool
              cases hfind : mapFind (mapInsert st.poolHandler ident
                  o.newPool) ident with
              | none => rw [hfind] at hsome; exact Bool.noConfusion hsome
              | some p =>
                  constructor
                  · simp [createRecordStore, hp, hi, hc]
                    exact lookup_insertKV_self st.identList ident ns
                  · refine ⟨p, ?_, ?_⟩
                    · simp [createRecordStore, hp, hi, hc]
                      exact hfind
                    · simp [createRecordStore, getRecordStore, hp, hi, hc,
                        hfind, hg]

/-- A `createRecordStore` run with every external call succeeding. -/
def sampleCreateOracleOk : CreateRSOracle :=
  { poolOpThrows := false, newPool := samplePool,
    insertKVThrows := false, ctorThrows := false }

/-- A `getRecordStore` run with every external call succeeding. -/
def sampleGetOracle : GetRSOracle :=
  { cachedOpThrows := false, openThrows := false,
    diskPool := { pid := 9, root := { index := [] } } }

/-- Witness for C7: create "coll" in the empty engine state, then get
it back. -/
theorem create_then_get_same_pool_witness :
    (createRecordStore sampleCreateOracleOk "db.c" "coll" sampleState).1
      = CreateRSResult.status OpStatus.ok
    ∧ sampleGetOracle.cachedOpThrows = false
    ∧ (((createRecordStore sampleCreateOracleOk "db.c" "coll"
          sampleState).2.identList.lookup "coll" = some "db.c")
      ∧ ∃ p, mapFind (createRecordStore sampleCreateOracleOk "db.c" "coll"
              sampleState).2.poolHandler "coll" = some p
          ∧ getRecordStore sampleGetOracle "db.c" "coll"
              (createRecordStore sampleCreateOracleOk "db.c" "coll"
                sampleState).2
            = some ({ pool := p, openedFromDisk := false },
                { (createRecordStore sampleCreateOracleOk "db.c" "coll"
                    sampleState).2 with
                    identList := (createRecordStore sampleCreateOracleOk
                      "db.c" "coll"
                      sampleState).2.identList.update "coll" "db.c" })) :=
  ⟨rfl, rfl, create_then_get_same_pool sampleCreateOracleOk sampleGetOracle
    "db.c" "db.c" "coll" sampleState rfl rfl⟩

/-- C8: a `RemoveChange` built from payload P restores the prior map
state exactly on rollback (the backing map again contains a record
equal to P), while commit releases the cached copy and leaves no trace
of P in the map. -/
theorem removeChange_rollback_restores_commit_releases (P : InitData)
    (pop : Nat) (m : MapState) (hP : P ∉ m.records) :
    ((RemoveChange.fromPayload pop P).rollback m).2.records = P :: m.records
    ∧ P ∈ ((RemoveChange.fromPayload pop P).rollback m).2.records
    ∧ ((RemoveChange.fromPayload pop P).commit m).1.cachedData = none
    ∧ ((RemoveChange.fromPayload pop P).commit m).2 = m
    ∧ P ∉ ((RemoveChange.fromPayload pop P).commit m).2.records := by
  refine ⟨rfl, ?_, rfl, rfl, ?_⟩
  · simp [RemoveChange.fromPayload, RemoveChange.rollback]
  · simpa [RemoveChange.commit] using hP

/-- Witness for C8 at a concrete payload and a map that no longer
contains it. -/
theorem removeChange_rollback_restores_commit_releases_witness :
    ({ payload := "rec" } : InitData) ∉
      ({ records := [{ payload := "other" }] } : MapState).records
    ∧ (((RemoveChange.fromPayload 1 { payload := "rec" }).rollback
          { records := [{ payload := "other" }] }).2.records
        = { payload := "rec" } :: ({ records :=
            [{ payload := "other" }] } : MapState).records
      ∧ ({ payload := "rec" } : InitData) ∈
          ((RemoveChange.fromPayload 1 { payload := "rec" }).rollback
            { records := [{ payload := "other" }] }).2.records
      ∧ ((RemoveChange.fromPayload 1 { payload := "rec" }).commit
          { records := [{ payload := "other" }] }).1.cachedData = none
      ∧ ((RemoveChange.fromPayload 1 { payload := "rec" }).commit
          { records := [{ payload := "other" }] }).2
        = { records := [{ payload := "other" }] }
      ∧ ({ payload := "rec" } : InitData) ∉
          ((RemoveChange.fromPayload 1 { payload := "rec" }).commit
            { records := [{ payload := "other" }] }).2.records) :=
  ⟨by decide, removeChange_rollback_restores_commit_releases
    { payload := "rec" } 1 { records := [{ payload := "other" }] }
    (by decide)⟩

/-- C9 counterexample: `getRecordStore` and `getSortedDataInterface`
contain no `lock_guard` on the registry mutex, so not every structural
operation acquires it. -/
theorem structural_mutex_gap_cex :
    acquiresRegistryMutex StructuralOp.getRecordStore = false
    ∧ acquiresRegistryMutex StructuralOp.getSortedDataInterface = false :=
  ⟨rfl, rfl⟩

/-- C9 amended: of the five structural registry operations, exactly
`createRecordStore`, `createSortedDataInterface` and `dropIdent`
acquire the registry mutex; `getRecordStore` and
`getSortedDataInterface` do not, so those two can interleave with the
others. -/
theorem structural_mutex_coverage :
    acquiresRegistryMutex StructuralOp.createRecordStore = true
    ∧ acquiresRegistryMutex StructuralOp.createSortedDataInterface = true
    ∧ acquiresRegistryMutex StructuralOp.dropIdent = true
    ∧ acquiresRegistryMutex StructuralOp.getRecordStore = false
    ∧ acquiresRegistryMutex StructuralOp.getSortedDataInterface = false :=
  ⟨rfl, rfl, rfl, rfl, rfl⟩

end PMSE
